import Mathlib

/-!
Verification of the Sun Moon Tracker script.

Part 1 embeds the ephemeris math of the script (functions `getSunPosition`,
`getMoonPosition` and their helpers) as functions over the real numbers,
keeping the source constants (in particular the approximate degree/radian
conversion factors 0.01745329251 and 57.2957795131, and the exact `Math.PI`
where the source uses it).

Part 2 gives reference definitions that follow the wording of the
specification for the two refinement claims (sun and moon solver), to be
compared with the embedded source functions.

Part 3 is an executable operational model, over the rationals, of the
event-driven control flow of the script: `getOrb`, the readiness gate,
the location fetch, the heading subscription and the per-frame polling.
-/

namespace SunMoonTracker

noncomputable section

open Real

/-! ## Part 1: the ephemeris code, over the reals -/

/-- Source constant `DEG_TO_RAD` (an approximation of pi / 180). -/
def DEG_TO_RAD : ℝ := 0.01745329251

/-- Source constant `RAD_TO_DEG` (an approximation of 180 / pi). -/
def RAD_TO_DEG : ℝ := 57.2957795131

/-- Source constant `dayMs`. -/
def dayMs : ℝ := 1000 * 60 * 60 * 24

/-- Source constant `J1970`. -/
def J1970 : ℝ := 2440588

/-- Source constant `J2000`. -/
def J2000 : ℝ := 2451545

/-- Source function `degToRad`. -/
def degToRad (deg : ℝ) : ℝ := deg * DEG_TO_RAD

/-- Source function `radToDeg`. -/
def radToDeg (rad : ℝ) : ℝ := rad * RAD_TO_DEG

/-- Source function `toJulian`; the argument is `date.getTime()` in unix
milliseconds. -/
def toJulian (t : ℝ) : ℝ := t / dayMs - 0.5 + J1970

/-- Source function `toDays`. -/
def toDays (t : ℝ) : ℝ := toJulian t - J2000

/-- Source function `getSiderealTime`. -/
def getSiderealTime (d lw : ℝ) : ℝ := degToRad (280.16 + 360.9856235 * d) - lw

/-- Two-argument arctangent with the quadrant and range convention of
`Math.atan2`: the angle of the point `(x, y)` in the half-open interval
from -pi exclusive to pi inclusive, and 0 at the origin. This is exactly
the argument of the complex number with real part `x` and imaginary part
`y`. -/
def atan2 (y x : ℝ) : ℝ := Complex.arg ⟨x, y⟩

/-- Truncation toward zero, the integer division underlying the JavaScript
remainder operator. -/
def rtrunc (x : ℝ) : ℤ := if 0 ≤ x then ⌊x⌋ else ⌈x⌉

/-- The JavaScript remainder operator on real numbers: the result has the
sign of the dividend. -/
def jsMod (a b : ℝ) : ℝ := a - b * rtrunc (a / b)

/-- The record returned by both position solvers: azimuth and altitude in
degrees, distance in centimeters. -/
structure SkyPosition where
  azimuth : ℝ
  altitude : ℝ
  distance : ℝ

/-- Source function `getAzAlt`: first component azimuth, second altitude,
both in radians. -/
def getAzAlt (H phi dec : ℝ) : ℝ × ℝ :=
  (atan2 (sin H) (cos H * sin phi - tan dec * cos phi),
   arcsin (sin phi * sin dec + cos phi * cos dec * cos H))

/-- Source constant `earthTiltRad` inside `getSunPosition`. -/
def earthTiltRad : ℝ := degToRad 23.44

/-- Source constant `AU_IN_CM` inside `getSunPosition`. -/
def AU_IN_CM : ℝ := 1.495978707e13

/-- Source function `getSolarMeanAnomaly`. -/
def getSolarMeanAnomaly (d : ℝ) : ℝ := degToRad (357.5291 + 0.98560028 * d)

/-- Source function `getEquationOfCenter`. -/
def getEquationOfCenter (M : ℝ) : ℝ :=
  degToRad (1.9148 * sin M + 0.02 * sin (2 * M) + 0.0003 * sin (3 * M))

/-- Source function `getEclipticLongitude`; the last summand is `Math.PI`
in the source, the exact half turn. -/
def getEclipticLongitude (M C : ℝ) : ℝ := M + C + degToRad 102.9372 + π

/-- Source function `getDeclination`. -/
def getDeclination (L : ℝ) : ℝ := arcsin (sin L * sin earthTiltRad)

/-- Source function `getRightAscension`. -/
def getRightAscension (L : ℝ) : ℝ := atan2 (sin L * cos earthTiltRad) (cos L)

/-- Source function `getSunDistanceAU`. -/
def getSunDistanceAU (M C : ℝ) : ℝ :=
  1.00014 - 0.01671 * cos M - 0.00014 * cos (2 * M + C)

/-- Source function `getSunPosition`: azimuth and altitude in degrees and
distance in centimeters for the sun, from unix milliseconds, latitude and
longitude in degrees. -/
def getSunPosition (t latitude longitude : ℝ) : SkyPosition :=
  let d := toDays t
  let lw := degToRad (-longitude)
  let phi := degToRad latitude
  let M := getSolarMeanAnomaly d
  let C := getEquationOfCenter M
  let L := getEclipticLongitude M C
  let dec := getDeclination L
  let ra := getRightAscension L
  let sidereal := getSiderealTime d lw
  let H := sidereal - ra
  let distance := getSunDistanceAU M C
  let azalt := getAzAlt H phi dec
  { azimuth := jsMod (radToDeg azalt.1 + 180) 360
    altitude := radToDeg azalt.2
    distance := distance * AU_IN_CM }

/-- Source function `getMoonCoords` inside `getMoonPosition`: right
ascension, declination (radians) and distance (kilometers). -/
def getMoonCoords (d : ℝ) : ℝ × ℝ × ℝ :=
  let L := degToRad (218.316 + 13.176396 * d)
  let M := degToRad (134.963 + 13.064993 * d)
  let dist := 385001 - 20905 * cos M
  let l := L + degToRad (6.289 * sin M)
  let b := degToRad (5.128 * sin (degToRad (93.272 + 13.229350 * d)))
  let ra := atan2 (sin l * cos (degToRad 23.44) - tan b * sin (degToRad 23.44)) (cos l)
  let dec := arcsin (sin b * cos (degToRad 23.44) + cos b * sin (degToRad 23.44) * sin l)
  (ra, dec, dist)

/-- Source function `getMoonPosition`. -/
def getMoonPosition (t latitude longitude : ℝ) : SkyPosition :=
  let d := toDays t
  let lw := degToRad (-longitude)
  let phi := degToRad latitude
  let moon := getMoonCoords d
  let sidereal := getSiderealTime d lw
  let H := sidereal - moon.1
  let azalt := getAzAlt H phi moon.2.1
  { azimuth := jsMod (radToDeg azalt.1 + 180) 360
    altitude := radToDeg azalt.2
    distance := moon.2.2 * 100000 }

/-! ## Part 2: the reference algorithm as worded by the specification

Every quantity the specification writes as `x deg` is converted with the
degree/radian utility of the script, keeping its published conversion
constant; the specification presents the whole algorithm in degrees and
defers the conversion to the "degree/radian utilities" of the
Time/Coordinate Math component. -/

/-- Spec reference: day count `d = unixMillis/86400000 - 0.5 + 2440588 -
2451545`. -/
def specDays (t : ℝ) : ℝ := t / 86400000 - 0.5 + 2440588 - 2451545

/-- Spec reference: solar mean anomaly `M = 357.5291 deg + 0.98560028 deg
* d`. -/
def specSunM (d : ℝ) : ℝ := degToRad 357.5291 + degToRad 0.98560028 * d

/-- Spec reference: equation of center `C = 1.9148 deg * sin M + 0.02 deg
* sin 2M + 0.0003 deg * sin 3M`. -/
def specSunC (M : ℝ) : ℝ :=
  degToRad 1.9148 * sin M + degToRad 0.02 * sin (2 * M) + degToRad 0.0003 * sin (3 * M)

/-- Spec reference, as literally worded: ecliptic longitude `L = M + C +
102.9372 deg + 180 deg`, the final term converted like every other degree
quantity. -/
def specSunL (M C : ℝ) : ℝ := M + C + degToRad 102.9372 + degToRad 180

/-- The amended ecliptic longitude: the final term is the exact half turn
pi (the source uses `Math.PI` there), not the approximate conversion of
180 degrees. -/
def specSunLPi (M C : ℝ) : ℝ := M + C + degToRad 102.9372 + π

/-- Spec reference: sidereal time `280.16 deg + 360.9856235 deg * d -
(-longitude)`. -/
def specSidereal (d longitude : ℝ) : ℝ :=
  degToRad 280.16 + degToRad 360.9856235 * d - degToRad (-longitude)

/-- Spec reference sun solver, with the ecliptic longitude as a parameter
so that the claimed wording and the amended wording share the remaining
steps. -/
def specSunPositionWith (Lfun : ℝ → ℝ → ℝ) (t latitude longitude : ℝ) : SkyPosition :=
  let d := specDays t
  let phi := degToRad latitude
  let M := specSunM d
  let C := specSunC M
  let L := Lfun M C
  let dec := arcsin (sin L * sin (degToRad 23.44))
  let ra := atan2 (sin L * cos (degToRad 23.44)) (cos L)
  let H := specSidereal d longitude - ra
  let altitude := arcsin (sin phi * sin dec + cos phi * cos dec * cos H)
  let azimuth := atan2 (sin H) (cos H * sin phi - tan dec * cos phi)
  { azimuth := jsMod (radToDeg azimuth + 180) 360
    altitude := radToDeg altitude
    distance := (1.00014 - 0.01671 * cos M - 0.00014 * cos (2 * M + C)) * 1.495978707e13 }

/-- The reference sun algorithm exactly as the claim words it. -/
def specSunPosition : ℝ → ℝ → ℝ → SkyPosition := specSunPositionWith specSunL

/-- The reference sun algorithm with the amended ecliptic longitude term. -/
def specSunPositionPi : ℝ → ℝ → ℝ → SkyPosition := specSunPositionWith specSunLPi

/-- The reference moon algorithm as the claim words it. -/
def specMoonPosition (t latitude longitude : ℝ) : SkyPosition :=
  let d := specDays t
  let phi := degToRad latitude
  let L := degToRad 218.316 + degToRad 13.176396 * d
  let M := degToRad 134.963 + degToRad 13.064993 * d
  let dist := 385001 - 20905 * cos M
  let l := L + degToRad 6.289 * sin M
  let b := degToRad 5.128 * sin (degToRad 93.272 + degToRad 13.229350 * d)
  let ra := atan2 (sin l * cos (degToRad 23.44) - tan b * sin (degToRad 23.44)) (cos l)
  let dec := arcsin (sin b * cos (degToRad 23.44) + cos b * sin (degToRad 23.44) * sin l)
  let H := specSidereal d longitude - ra
  let altitude := arcsin (sin phi * sin dec + cos phi * cos dec * cos H)
  let azimuth := atan2 (sin H) (cos H * sin phi - tan dec * cos phi)
  { azimuth := jsMod (radToDeg azimuth + 180) 360
    altitude := radToDeg altitude
    distance := dist * 100000 }

/-! ## Screen projection helper

The camera and the tracking transform are external collaborators; they are
modelled as an optional projection function (absent when no DeviceTracking
component, and hence no camera, is configured) and a point transformation
for the inverted world transform of the tracking component. -/

/-- A two-component vector, as the `vec2` of the host. -/
structure vec2 where
  x : ℝ
  y : ℝ

/-- A three-component vector, as the `vec3` of the host. -/
structure vec3 where
  x : ℝ
  y : ℝ
  z : ℝ

/-- The record returned by `worldToScreen`. -/
structure ScreenSpaceInfo where
  position : vec2
  isInFront : Prop

/-- The external rendering collaborators of the script: the camera
projection `worldSpaceToScreenSpace` (absent when no camera is
configured) and the `multiplyPoint` action of the inverted world
transform of the tracking component. -/
structure RenderEnv where
  cam : Option (vec3 → vec2)
  invertedWorldTransform : vec3 → vec3

/-- Source function `worldToScreen`: returns nothing when no camera is
configured (the source returns undefined), otherwise the remapped screen
position together with the depth-sign classification. -/
def worldToScreen (env : RenderEnv) (worldPosition : vec3) : Option ScreenSpaceInfo :=
  match env.cam with
  | none => none
  | some proj =>
    let zPos := env.invertedWorldTransform worldPosition
    let isInFront := zPos.z < 0
    let position := proj worldPosition
    some { position := ⟨(position.x - 0.5) * 2, (1 - position.y - 0.5) * 2⟩
           isInFront := isInFront }

end

/-! ## Part 3: operational model of the control flow

The event-driven part of the script, over the rationals so that every
definition is executable. Time is the value of `getTime()` in seconds.
External happenings (frame ticks, heading updates, location callbacks,
calls into the public API) are events consumed by a step function; the
tilt angle the device transform would yield at a poll is carried by the
event that triggers the poll. -/

/-- Setting `initialWait` (seconds). -/
def initialWait : ℚ := 1

/-- Setting `headingLifetime` (seconds). -/
def headingLifetime : ℚ := 0.15

/-- Setting `flipHeadingOnSpectacles`. -/
def flipHeadingOnSpectacles : Bool := true

/-- Setting `awaitUpright`. -/
def awaitUpright : Bool := true

/-- Setting `uprightThreshold` (radians). -/
def uprightThreshold : ℚ := 0.7

/-- Setting `tiltHeadingOffset` (degrees). -/
def tiltHeadingOffset : ℚ := 75

/-- Log message `alreadyActive`. -/
def alreadyActive : String := "Aborted because a search is already active."

/-- Log message `noCallback`. -/
def noCallback : String := "No onSuccess callback given!"

/-- The two entries of the source `OrbType` table. -/
inductive OrbKind
  | sun
  | moon
deriving DecidableEq

/-- A GPS fix as delivered by the location service. -/
structure GeoFix where
  latitude : ℚ
  longitude : ℚ
  altitude : ℚ
  horizontalAccuracy : ℚ
  verticalAccuracy : ℚ
deriving DecidableEq

/-- Progress of one `getOrb` call: parked until the initial wait elapses,
then awaiting the `getCurrentPosition` callback, then polling the
readiness gate once per frame. -/
inductive ReqPhase
  | awaitingStart
  | awaitingGps
  | awaitingReady (fix : GeoFix)
deriving DecidableEq

/-- The closure state of one `getOrb` call; `foundPosition` is the
call-local variable of the same name. -/
structure Req where
  id : ℕ
  kind : OrbKind
  hasOnFail : Bool
  foundPosition : Option GeoFix
  phase : ReqPhase
deriving DecidableEq

/-- The module-level mutable state of the script: current time, the
platform flag, the camera-facing flag, the per-kind searching flags, the
lazily created location service, the latest heading sample (value and
capture time, absent before the first update), the `tilt` cell written by
`checkTilt`, the outstanding `getOrb` calls, and a counter of
`getCurrentPosition` invocations. -/
structure Core where
  now : ℚ
  specs : Bool
  frontCameraFlip : Bool
  sunSearching : Bool
  moonSearching : Bool
  serviceCreated : Bool
  headingSample : Option (ℚ × ℚ)
  tilt : Option ℚ
  pending : List Req
  nextId : ℕ
  gpsRequests : ℕ
deriving DecidableEq

/-- Observable outcomes: a resolved request (with the raw heading sample
value it consumed, the capture time of that sample, the time of the
computation, the massaged heading placed in the info record, and the fix),
a failure callback, or a raised usage error. -/
inductive OutEvent
  | success (kind : OrbKind) (rawHeading capturedAt resolvedAt appliedHeading : ℚ) (fix : GeoFix)
  | fail (kind : OrbKind) (msg : String)
  | thrown (msg : String)
deriving DecidableEq

/-- The per-kind `isSearching` flag. -/
def Core.searching (c : Core) : OrbKind → Bool
  | .sun => c.sunSearching
  | .moon => c.moonSearching

/-- Write the per-kind `isSearching` flag. -/
def Core.setSearching (c : Core) : OrbKind → Bool → Core
  | .sun, b => { c with sunSearching := b }
  | .moon, b => { c with moonSearching := b }

/-- Source function `remap`; the defaulting of absent range arguments is
dead at the single call site, which passes all five. -/
def remap (value low1 high1 low2 high2 : ℚ) : ℚ :=
  low2 + (high2 - low2) * (value - low1) / (high1 - low1)

/-- Source function `checkTimeStamp`, with the current time passed
explicitly. -/
def checkTimeStamp (now t threshold : ℚ) : Bool := decide (now - t < threshold)

/-- Source function `checkTilt`: stores the tilt reading derived from the
device transform into the `tilt` cell and reports whether its magnitude
exceeds the threshold (the source returns undefined, which is falsy, when
upright, and returns without storing when `awaitUpright` is off). -/
def checkTilt (c : Core) (reading : ℚ) : Bool × Core :=
  if awaitUpright then
    (decide (uprightThreshold < |reading|), { c with tilt := some reading })
  else (false, c)

/-- The readiness check `isReady` inside `onPositionFound`: the stored
heading must be truthy (present and nonzero, since 0 is falsy), fresh
per `checkTimeStamp`, and the device upright; the conjunction
short-circuits, so `checkTilt` runs (and stores the tilt) only when the
first two tests pass. -/
def isReady (c : Core) (reading : ℚ) : Bool × Core :=
  match c.headingSample with
  | none => (false, c)
  | some (h, t0) =>
    if h = 0 then (false, c)
    else if checkTimeStamp c.now t0 headingLifetime then
      let tc := checkTilt c reading
      (!tc.1, tc.2)
    else (false, c)

/-- `interpretTrackingData`: clears the searching flag of the kind, takes
a working copy of the heading, applies the front-camera flip, the
Spectacles flip and the tilt compensation, and emits the result record.
The numeric sky position is computed by the pure solvers of Part 1 and is
not re-modelled here; the record carries the data the temporal claims are
about. -/
def interpretTrackingData (c : Core) (kind : OrbKind) (fix : GeoFix) : Core × OutEvent :=
  let c1 := c.setSearching kind false
  let hs := c1.headingSample.getD (0, 0)
  let heading1 := if c1.frontCameraFlip then -hs.1 else hs.1
  let heading2 := if c1.specs && flipHeadingOnSpectacles then heading1 + 180 else heading1
  let heading3 :=
    match c1.tilt with
    | none => heading2
    | some tl =>
      if tl = 0 then heading2
      else heading2 - remap tl (-uprightThreshold) uprightThreshold
        (-tiltHeadingOffset / 2 * uprightThreshold) (tiltHeadingOffset / 2 * uprightThreshold)
  (c1, .success kind hs.1 hs.2 c1.now heading3 fix)

/-- `onPositionFound`: stores the fix in the call-local cache, then either
computes immediately when the gate is ready or parks the request for
per-frame polling. Returns the new state, the outputs, and the surviving
request if any. -/
def onPositionFound (c : Core) (r : Req) (fix : GeoFix) (reading : ℚ) :
    Core × List OutEvent × Option Req :=
  let r1 := { r with foundPosition := some fix }
  let rc := isReady c reading
  if rc.1 then
    let co := interpretTrackingData rc.2 r1.kind fix
    (co.1, [co.2], none)
  else
    (rc.2, [], some { r1 with phase := .awaitingReady fix })

/-- `requestUserPosition`: reuses the call-local cached fix when present
(the cache is freshly undefined on every `getOrb` call, so this branch is
dead from the initial state), otherwise issues
`locationService.getCurrentPosition`. -/
def requestUserPosition (c : Core) (r : Req) (reading : ℚ) :
    Core × List OutEvent × Option Req :=
  match r.foundPosition with
  | some p => onPositionFound c r p reading
  | none =>
    ({ c with gpsRequests := c.gpsRequests + 1 }, [], some { r with phase := .awaitingGps })

/-- One per-frame poll of an outstanding request: the parked initial-wait
event, or the readiness poll of a request that has its fix. -/
def pollReq (c : Core) (r : Req) (reading : ℚ) : Core × List OutEvent × Option Req :=
  match r.phase with
  | .awaitingStart =>
    if initialWait < c.now then requestUserPosition c r reading
    else (c, [], some r)
  | .awaitingGps => (c, [], some r)
  | .awaitingReady fix =>
    let rc := isReady c reading
    if rc.1 then
      let co := interpretTrackingData rc.2 r.kind fix
      (co.1, [co.2], none)
    else (rc.2, [], some r)

/-- Run the per-frame polls of all outstanding requests, in order. -/
def pollAll (c : Core) (rs : List Req) (reading : ℚ) : Core × List OutEvent × List Req :=
  match rs with
  | [] => (c, [], [])
  | r :: rest =>
    let one := pollReq c r reading
    let restRes := pollAll one.1 rest reading
    (restRes.1, one.2.1 ++ restRes.2.1, one.2.2.toList ++ restRes.2.2)

/-- Deliver a successful `getCurrentPosition` callback to the request
that issued it. -/
def deliverGps (c : Core) (rs : List Req) (i : ℕ) (fix : GeoFix) (reading : ℚ) :
    Core × List OutEvent × List Req :=
  match rs with
  | [] => (c, [], [])
  | r :: rest =>
    if r.id = i ∧ r.phase = ReqPhase.awaitingGps then
      let one := onPositionFound c r fix reading
      (one.1, one.2.1, one.2.2.toList ++ rest)
    else
      let restRes := deliverGps c rest i fix reading
      (restRes.1, restRes.2.1, r :: restRes.2.2)

/-- Deliver a failed `getCurrentPosition` callback: the error handler only
invokes the optional failure callback: it does not touch the searching
flag of the kind. -/
def deliverGpsFailure (rs : List Req) (i : ℕ) (msg : String) :
    List OutEvent × List Req :=
  match rs with
  | [] => ([], [])
  | r :: rest =>
    if r.id = i ∧ r.phase = ReqPhase.awaitingGps then
      ((if r.hasOnFail then [OutEvent.fail r.kind msg] else []), rest)
    else
      let restRes := deliverGpsFailure rest i msg
      (restRes.1, r :: restRes.2)

/-- Source function `getOrb`: callback usage check, contention check,
flag set, lazy service creation, fresh call-local fix cache, and either an
immediate `requestUserPosition` or a parked initial-wait poll. -/
def getOrb (c : Core) (kind : OrbKind) (hasOnSuccess hasOnFail : Bool) (reading : ℚ) :
    Core × List OutEvent :=
  if !hasOnSuccess then (c, [.thrown noCallback])
  else if c.searching kind then
    (c, if hasOnFail then [.fail kind alreadyActive] else [])
  else
    let c1 := c.setSearching kind true
    let c2 := if c1.serviceCreated then c1 else { c1 with serviceCreated := true }
    let r : Req := { id := c2.nextId, kind := kind, hasOnFail := hasOnFail,
                     foundPosition := none, phase := .awaitingStart }
    let c3 := { c2 with nextId := c2.nextId + 1 }
    if initialWait < c3.now then
      let one := requestUserPosition c3 r reading
      ({ one.1 with pending := one.1.pending ++ one.2.2.toList }, one.2.1)
    else
      ({ c3 with pending := c3.pending ++ [r] }, [])

/-- External events: passage of time, a frame tick (with the tilt reading
the device transform yields), a heading update from the continuous
subscription, the two location-service callbacks, camera-facing changes,
and a call into the public request API. -/
inductive Ev
  | advance (dt : ℚ)
  | frame (reading : ℚ)
  | headingUpdate (h : ℚ)
  | gpsSuccess (id : ℕ) (fix : GeoFix) (reading : ℚ)
  | gpsFailure (id : ℕ) (msg : String)
  | cameraFront
  | cameraBack
  | call (kind : OrbKind) (hasOnSuccess hasOnFail : Bool) (reading : ℚ)
deriving DecidableEq

/-- The step function of the model. -/
def step (c : Core) (e : Ev) : Core × List OutEvent :=
  match e with
  | .advance dt => ({ c with now := c.now + dt }, [])
  | .frame reading =>
    let res := pollAll c c.pending reading
    ({ res.1 with pending := res.2.2 }, res.2.1)
  | .headingUpdate h =>
    if c.serviceCreated then ({ c with headingSample := some (h, c.now) }, [])
    else (c, [])
  | .gpsSuccess i fix reading =>
    let res := deliverGps c c.pending i fix reading
    ({ res.1 with pending := res.2.2 }, res.2.1)
  | .gpsFailure i msg =>
    let res := deliverGpsFailure c.pending i msg
    ({ c with pending := res.2 }, res.1)
  | .cameraFront => if c.specs then (c, []) else ({ c with frontCameraFlip := true }, [])
  | .cameraBack => if c.specs then (c, []) else ({ c with frontCameraFlip := false }, [])
  | .call kind hs hf reading => getOrb c kind hs hf reading

/-- Run a list of events, collecting the outputs. -/
def run (c : Core) : List Ev → Core × List OutEvent
  | [] => (c, [])
  | e :: es =>
    let s1 := step c e
    let rest := run s1.1 es
    (rest.1, s1.2 ++ rest.2)

/-- The state at lens start. -/
def initCore (specs : Bool) : Core :=
  { now := 0, specs := specs, frontCameraFlip := false, sunSearching := false,
    moonSearching := false, serviceCreated := false, headingSample := none,
    tilt := none, pending := [], nextId := 0, gpsRequests := 0 }

/-- A sample fix for concrete runs. -/
def demoFix : GeoFix :=
  { latitude := 51, longitude := 0, altitude := 0,
    horizontalAccuracy := 10, verticalAccuracy := 10 }


/-! ## Inputs for the concrete counterexamples

The chained quantities of the embedded sun solver at instant 0 (unix
milliseconds), and latitudes and a longitude crafted from them: `cxLong`
makes the hour angle of the embedded solver zero at instant 0, `cxLatDec`
converts to exactly the solver declination, and `cxLatPole` converts to
exactly a quarter turn. -/

noncomputable section

/-- Day count of the embedded solver at instant 0. -/
def cxd : ℝ := toDays 0

/-- Solar mean anomaly of the embedded solver at instant 0. -/
def cxM : ℝ := getSolarMeanAnomaly cxd

/-- Equation of center of the embedded solver at instant 0. -/
def cxC : ℝ := getEquationOfCenter cxM

/-- Ecliptic longitude of the embedded solver at instant 0. -/
def cxL : ℝ := getEclipticLongitude cxM cxC

/-- Declination of the embedded solver at instant 0. -/
def cxDec : ℝ := getDeclination cxL

/-- Right ascension of the embedded solver at instant 0. -/
def cxRa : ℝ := getRightAscension cxL

/-- Sidereal angle term of the embedded solver at instant 0, before the
longitude correction. -/
def cxS : ℝ := degToRad (280.16 + 360.9856235 * cxd)

/-- Longitude at which the hour angle of the embedded sun solver is zero
at instant 0. -/
def cxLong : ℝ := (cxRa - cxS) / DEG_TO_RAD

/-- Latitude whose degree-to-radian conversion is exactly the declination
of the embedded sun solver at instant 0. -/
def cxLatDec : ℝ := cxDec / DEG_TO_RAD

/-- Latitude whose degree-to-radian conversion is exactly a quarter turn. -/
def cxLatPole : ℝ := Real.pi / 2 / DEG_TO_RAD

end

/-- The freshness property of an output: a resolved request consumed a
heading sample captured strictly less than `headingLifetime` before the
moment of the computation. -/
def FreshOut : OutEvent → Prop
  | .success _ _ capturedAt resolvedAt _ _ => resolvedAt - capturedAt < headingLifetime
  | _ => True


/-! ## Theorems

Helper lemmas first, then one theorem per claim (with counterexamples and
witnesses where the claim calls for them). -/

open Real

/-- The conversion constant of the script is nonzero. -/
theorem hDEG : (DEG_TO_RAD : ℝ) ≠ 0 := by norm_num [DEG_TO_RAD]

/-- The output conversion constant of the script is nonzero. -/
theorem hRAD : (RAD_TO_DEG : ℝ) ≠ 0 := by norm_num [RAD_TO_DEG]

/-- Case formula for the JavaScript remainder by 360 on the range met by
the reported azimuth. -/
theorem jsMod360_cases (a : ℝ) (hlo : -360 < a) (hhi : a < 720) :
    jsMod a 360 = if a < 0 then a else if a < 360 then a else a - 360 := by
  unfold jsMod rtrunc
  rcases lt_or_le a 0 with hneg | hpos
  · rw [if_pos hneg, if_neg (by nlinarith : ¬ (0 : ℝ) ≤ a / 360)]
    have hc : ⌈a / 360⌉ = 0 := by
      rw [Int.ceil_eq_zero_iff]
      constructor
      · nlinarith
      · nlinarith
    rw [hc]
    norm_num
  · rw [if_neg (not_lt.mpr hpos), if_pos (by positivity : (0 : ℝ) ≤ a / 360)]
    rcases lt_or_le a 360 with h1 | h2
    · rw [if_pos h1]
      have hf : ⌊a / 360⌋ = 0 := by
        rw [Int.floor_eq_zero_iff]
        constructor
        · positivity
        · nlinarith
      rw [hf]
      norm_num
    · rw [if_neg (not_lt.mpr h2)]
      have hf : ⌊a / 360⌋ = 1 := by
        rw [Int.floor_eq_iff]
        constructor
        · push_cast
          nlinarith
        · push_cast
          nlinarith
      rw [hf]
      push_cast
      norm_num

/-- Range of the reported azimuth and altitude, given the ranges of the
radian azimuth (from atan2) and radian altitude (from arcsin); the
conversion constant of the script slightly exceeds 180 / pi, so the
reported values can overshoot the exact bounds by less than 1e-9 degrees. -/
theorem reported_range (azr altr : ℝ) (h1 : -π < azr) (h2 : azr ≤ π)
    (h3 : -(π / 2) ≤ altr) (h4 : altr ≤ π / 2) :
    (-1e-9 < jsMod (radToDeg azr + 180) 360 ∧ jsMod (radToDeg azr + 180) 360 < 360) ∧
    -(90 + 1e-9) ≤ radToDeg altr ∧ radToDeg altr ≤ 90 + 1e-9 := by
  have hpi : π < 3.14159265358979323847 := Real.pi_lt_d20
  have hxlo : -1e-9 < radToDeg azr + 180 := by
    rw [radToDeg, RAD_TO_DEG]
    nlinarith
  have hxhi : radToDeg azr + 180 < 360.1 := by
    rw [radToDeg, RAD_TO_DEG]
    nlinarith
  have hm := jsMod360_cases (radToDeg azr + 180) (by linarith) (by linarith)
  constructor
  · rw [hm]
    split_ifs with c1 c2
    · exact ⟨hxlo, by linarith⟩
    · exact ⟨hxlo, c2⟩
    · constructor
      · linarith [not_lt.mp c2]
      · linarith
  · rw [radToDeg, RAD_TO_DEG]
    constructor
    · nlinarith
    · nlinarith

/-- The reported ranges hold for any use of `getAzAlt`. -/
theorem sky_range (H phi dec : ℝ) :
    (-1e-9 < jsMod (radToDeg (getAzAlt H phi dec).1 + 180) 360 ∧
      jsMod (radToDeg (getAzAlt H phi dec).1 + 180) 360 < 360) ∧
    -(90 + 1e-9) ≤ radToDeg (getAzAlt H phi dec).2 ∧
      radToDeg (getAzAlt H phi dec).2 ≤ 90 + 1e-9 := by
  have haz := Complex.arg_mem_Ioc ⟨cos H * sin phi - tan dec * cos phi, sin H⟩
  have halt := Real.arcsin_mem_Icc (sin phi * sin dec + cos phi * cos dec * cos H)
  exact reported_range _ _ haz.1 haz.2 halt.1 halt.2

/-- The cosine of the fixed obliquity used by both solvers is positive. -/
theorem cos_earthTilt_pos : 0 < cos earthTiltRad := by
  apply Real.cos_pos_of_mem_Ioo
  constructor
  · unfold earthTiltRad degToRad DEG_TO_RAD
    nlinarith [Real.pi_pos]
  · unfold earthTiltRad degToRad DEG_TO_RAD
    nlinarith [Real.pi_gt_d2]

/-- Equal right ascensions force equal sine and cosine of the underlying
ecliptic longitudes: the map from the ecliptic longitude to the point fed
to atan2 is injective on the circle. -/
theorem ra_eq_imp (a b : ℝ) (h : getRightAscension a = getRightAscension b) :
    cos a = cos b ∧ sin a = sin b := by
  have hε := cos_earthTilt_pos
  have hza : (⟨cos a, sin a * cos earthTiltRad⟩ : ℂ) ≠ 0 := by
    intro hz
    have hre : cos a = 0 := congrArg Complex.re hz
    have him : sin a * cos earthTiltRad = 0 := congrArg Complex.im hz
    have hsin : sin a = 0 := by
      rcases mul_eq_zero.mp him with h' | h'
      · exact h'
      · exact absurd h' (ne_of_gt hε)
    nlinarith [sin_sq_add_cos_sq a]
  have hzb : (⟨cos b, sin b * cos earthTiltRad⟩ : ℂ) ≠ 0 := by
    intro hz
    have hre : cos b = 0 := congrArg Complex.re hz
    have him : sin b * cos earthTiltRad = 0 := congrArg Complex.im hz
    have hsin : sin b = 0 := by
      rcases mul_eq_zero.mp him with h' | h'
      · exact h'
      · exact absurd h' (ne_of_gt hε)
    nlinarith [sin_sq_add_cos_sq b]
  have harg : Complex.arg ⟨cos a, sin a * cos earthTiltRad⟩ =
      Complex.arg ⟨cos b, sin b * cos earthTiltRad⟩ := h
  have hu : 0 < Complex.abs ⟨cos a, sin a * cos earthTiltRad⟩ := Complex.abs.pos hza
  have hv : 0 < Complex.abs ⟨cos b, sin b * cos earthTiltRad⟩ := Complex.abs.pos hzb
  set u := Complex.abs ⟨cos a, sin a * cos earthTiltRad⟩ with hudef
  set v := Complex.abs ⟨cos b, sin b * cos earthTiltRad⟩ with hvdef
  have hca := Complex.cos_arg hza
  have hcb := Complex.cos_arg hzb
  have hsa := Complex.sin_arg (⟨cos a, sin a * cos earthTiltRad⟩ : ℂ)
  have hsb := Complex.sin_arg (⟨cos b, sin b * cos earthTiltRad⟩ : ℂ)
  dsimp only at hca hcb hsa hsb
  rw [harg] at hca hsa
  rw [hcb] at hca
  rw [hsb] at hsa
  have h1 : cos b * u = cos a * v := by
    have h' := (div_eq_div_iff (ne_of_gt hv) (ne_of_gt hu)).mp hca
    linear_combination h'
  have h2 : sin b * u = sin a * v := by
    have h' := (div_eq_div_iff (ne_of_gt hv) (ne_of_gt hu)).mp hsa
    have h'' : sin b * u * cos earthTiltRad = sin a * v * cos earthTiltRad := by
      linear_combination h'
    exact mul_right_cancel₀ (ne_of_gt hε) h''
  have h1s : (cos b * u) ^ 2 = (cos a * v) ^ 2 := by rw [h1]
  have h2s : (sin b * u) ^ 2 = (sin a * v) ^ 2 := by rw [h2]
  have huv2 : u ^ 2 = v ^ 2 := by
    nlinarith [sin_sq_add_cos_sq a, sin_sq_add_cos_sq b, h1s, h2s]
  have huv : u = v := by
    have hfac : (u - v) * (u + v) = 0 := by nlinarith [huv2]
    rcases mul_eq_zero.mp hfac with h' | h'
    · linarith
    · linarith
  constructor
  · have h3 := h1
    rw [huv] at h3
    exact (mul_right_cancel₀ (ne_of_gt hv) h3).symm
  · have h3 := h2
    rw [huv] at h3
    exact (mul_right_cancel₀ (ne_of_gt hv) h3).symm

/-- The atan2 of the sine and cosine of a nonzero angle inside one full
turn of zero is itself nonzero. -/
theorem arg_cos_sin_ne_zero {γ : ℝ} (h0 : γ ≠ 0) (hlo : -(2 * π) < γ) (hhi : γ < 2 * π) :
    Complex.arg ⟨cos γ, sin γ⟩ ≠ 0 := by
  intro h
  rw [Complex.arg_eq_zero_iff] at h
  obtain ⟨hc, hs⟩ := h
  dsimp only at hc hs
  obtain ⟨n, hn⟩ := Real.sin_eq_zero_iff.mp hs
  have hnR2 : (n : ℝ) < 2 := by nlinarith [Real.pi_pos]
  have hnR2' : (-2 : ℝ) < (n : ℝ) := by nlinarith [Real.pi_pos]
  have hn2 : n < 2 := by exact_mod_cast hnR2
  have hn2' : -2 < n := by exact_mod_cast hnR2'
  interval_cases n
  · have hγ : γ = -π := by push_cast at hn; linarith
    rw [hγ, Real.cos_neg, Real.cos_pi] at hc
    linarith
  · exact h0 (by push_cast at hn; linarith)
  · have hγ : γ = π := by push_cast at hn; linarith
    rw [hγ, Real.cos_pi] at hc
    linarith

/-- No angle shift strictly between 0 and one full turn preserves both
sine and cosine. -/
theorem no_small_shift {x η : ℝ} (h1 : 0 < η) (h2 : η < 2 * π)
    (hc : cos x = cos (x - η)) (hs : sin x = sin (x - η)) : False := by
  rcases Real.cos_eq_cos_iff.mp hc with ⟨k, hk | hk⟩
  · have hkR0 : (k : ℝ) < 0 := by nlinarith [Real.pi_pos]
    have hkR1 : (-1 : ℝ) < (k : ℝ) := by nlinarith [Real.pi_pos]
    have hk0 : k < 0 := by exact_mod_cast hkR0
    have hk1 : -1 < k := by exact_mod_cast hkR1
    omega
  · have hs2 : sin x = -sin x := by
      calc sin x = sin (x - η) := hs
        _ = sin (2 * (k : ℝ) * π - x) := by rw [hk]
        _ = sin (-(x - (k : ℝ) * (2 * π))) := by
            rw [show 2 * (k : ℝ) * π - x = -(x - (k : ℝ) * (2 * π)) from by ring]
        _ = -sin (x - (k : ℝ) * (2 * π)) := by rw [Real.sin_neg]
        _ = -sin x := by rw [Real.sin_sub_int_mul_two_pi]
    have hsin0 : sin x = 0 := by linarith
    obtain ⟨m, hm⟩ := Real.sin_eq_zero_iff.mp hsin0
    have hη : η = ((m - k : ℤ) : ℝ) * (2 * π) := by push_cast; linarith
    have hjR0 : (0 : ℝ) < ((m - k : ℤ) : ℝ) := by nlinarith [Real.pi_pos]
    have hjR1 : ((m - k : ℤ) : ℝ) < 1 := by nlinarith [Real.pi_pos]
    have hj0 : 0 < m - k := by exact_mod_cast hjR0
    have hj1 : m - k < 1 := by exact_mod_cast hjR1
    omega

/-- At the crafted longitude, the hour angle of the embedded sun solver at
instant 0 is zero. -/
theorem hH0 : getSiderealTime cxd (degToRad (-cxLong)) - cxRa = 0 := by
  rw [getSiderealTime, show degToRad (280.16 + 360.9856235 * cxd) = cxS from rfl,
    cxLong, degToRad]
  field_simp
  rw [mul_div_assoc, div_self hDEG, mul_one]
  ring

/-- The crafted pole latitude converts to a quarter turn. -/
theorem hPhiPole : degToRad cxLatPole = π / 2 := by
  rw [cxLatPole, degToRad, div_mul_cancel₀ _ hDEG]

/-- The gap between the exact half turn and the converted 180 degrees is
positive (the conversion constant of the script is slightly below
pi / 180). -/
theorem hEta1 : 0 < π - degToRad 180 := by
  rw [degToRad, DEG_TO_RAD]
  nlinarith [Real.pi_gt_d20]

/-- That gap is below one full turn. -/
theorem hEta2 : π - degToRad 180 < 2 * π := by
  have h : (0 : ℝ) < degToRad 180 := by norm_num [degToRad, DEG_TO_RAD]
  linarith [Real.pi_pos]

/-- At instant 0, crafted latitude and longitude, the altitude reported by
the embedded sun solver is the converted quarter turn. -/
theorem sun_alt_at_decLat : (getSunPosition 0 cxLatDec cxLong).altitude = radToDeg (π / 2) := by
  show radToDeg (arcsin
      (sin (degToRad cxLatDec) * sin cxDec +
        cos (degToRad cxLatDec) * cos cxDec *
          cos (getSiderealTime cxd (degToRad (-cxLong)) - cxRa))) = radToDeg (π / 2)
  have hphi : degToRad cxLatDec = cxDec := by
    rw [cxLatDec, degToRad, div_mul_cancel₀ _ hDEG]
  rw [hphi, hH0, cos_zero, mul_one,
    show sin cxDec * sin cxDec + cos cxDec * cos cxDec = 1 from by
      have := sin_sq_add_cos_sq cxDec; nlinarith [this],
    arcsin_one]

/-- At instant 0, pole latitude and crafted longitude, the azimuth
reported by the embedded sun solver is exactly 180. -/
theorem code_azimuth_at_pole : (getSunPosition 0 cxLatPole cxLong).azimuth = 180 := by
  show jsMod (radToDeg (atan2 (sin (getSiderealTime cxd (degToRad (-cxLong)) - cxRa))
      (cos (getSiderealTime cxd (degToRad (-cxLong)) - cxRa) * sin (degToRad cxLatPole) -
        tan cxDec * cos (degToRad cxLatPole))) + 180) 360 = 180
  rw [hH0, hPhiPole, Real.sin_pi_div_two, Real.cos_pi_div_two, Real.sin_zero, Real.cos_zero]
  rw [mul_zero, sub_zero, one_mul]
  have h01 : atan2 0 1 = 0 := by
    rw [atan2, show ((⟨1, 0⟩ : ℂ)) = 1 from Complex.ext rfl rfl, Complex.arg_one]
  rw [h01, radToDeg, zero_mul, zero_add]
  rw [jsMod360_cases 180 (by norm_num) (by norm_num)]
  norm_num

/-- At the same input, the azimuth of the reference algorithm as literally
worded differs from 180: its ecliptic longitude is shifted by the gap
between pi and the converted 180 degrees, which shifts the right
ascension, hence the hour angle, hence the azimuth. -/
theorem spec_azimuth_at_pole_ne :
    (specSunPosition 0 cxLatPole cxLong).azimuth ≠ 180 := by
  show jsMod (radToDeg (atan2
      (sin (specSidereal (specDays 0) cxLong -
        atan2 (sin (specSunL (specSunM (specDays 0)) (specSunC (specSunM (specDays 0)))) *
            cos (degToRad 23.44))
          (cos (specSunL (specSunM (specDays 0)) (specSunC (specSunM (specDays 0)))))))
      (cos (specSidereal (specDays 0) cxLong -
        atan2 (sin (specSunL (specSunM (specDays 0)) (specSunC (specSunM (specDays 0)))) *
            cos (degToRad 23.44))
          (cos (specSunL (specSunM (specDays 0)) (specSunC (specSunM (specDays 0)))))) *
        sin (degToRad cxLatPole) -
       tan (arcsin (sin (specSunL (specSunM (specDays 0)) (specSunC (specSunM (specDays 0)))) *
            sin (degToRad 23.44))) * cos (degToRad cxLatPole))) + 180) 360 ≠ 180
  have hd : specDays 0 = cxd := by
    norm_num [specDays, cxd, toDays, toJulian, dayMs, J1970, J2000]
  rw [hd]
  have hM : specSunM cxd = cxM := by
    simp only [specSunM, cxM, getSolarMeanAnomaly, degToRad]
    ring
  rw [hM]
  have hC : specSunC cxM = cxC := by
    simp only [specSunC, cxC, getEquationOfCenter, degToRad]
    ring
  rw [hC]
  have hL : specSunL cxM cxC = cxL - (π - degToRad 180) := by
    simp only [specSunL, cxL, getEclipticLongitude]
    ring
  rw [hL]
  have hsid : specSidereal cxd cxLong = cxRa := by
    simp only [specSidereal, cxLong, cxS, degToRad]
    field_simp [hDEG]
    ring
  rw [hsid, hPhiPole, Real.sin_pi_div_two, Real.cos_pi_div_two, mul_one, mul_zero, sub_zero]
  have hfold : atan2 (sin (cxL - (π - degToRad 180)) * cos (degToRad 23.44))
      (cos (cxL - (π - degToRad 180))) = getRightAscension (cxL - (π - degToRad 180)) := rfl
  rw [hfold]
  set ra2 := getRightAscension (cxL - (π - degToRad 180)) with hra2
  set γ := cxRa - ra2 with hγ
  have hb1 := Complex.arg_mem_Ioc (⟨cos cxL, sin cxL * cos earthTiltRad⟩ : ℂ)
  have hb2 := Complex.arg_mem_Ioc
    (⟨cos (cxL - (π - degToRad 180)), sin (cxL - (π - degToRad 180)) * cos earthTiltRad⟩ : ℂ)
  have hcxRa1 : -π < cxRa := hb1.1
  have hcxRa2 : cxRa ≤ π := hb1.2
  have hra21 : -π < ra2 := hb2.1
  have hra22 : ra2 ≤ π := hb2.2
  have hγne : γ ≠ 0 := by
    intro h0
    have hraeq : getRightAscension cxL = getRightAscension (cxL - (π - degToRad 180)) := by
      have : cxRa = ra2 := by linarith [sub_eq_zero.mp h0]
      exact this
    obtain ⟨hcc, hss⟩ := ra_eq_imp _ _ hraeq
    exact no_small_shift hEta1 hEta2 hcc hss
  have hane : atan2 (sin γ) (cos γ) ≠ 0 := by
    rw [atan2]
    exact arg_cos_sin_ne_zero hγne (by linarith) (by linarith)
  have hamem := Complex.arg_mem_Ioc (⟨cos γ, sin γ⟩ : ℂ)
  set a := atan2 (sin γ) (cos γ) with hadef
  have ha1 : -π < a := hamem.1
  have ha2 : a ≤ π := hamem.2
  have hxlo : (-1 : ℝ) < radToDeg a + 180 := by
    rw [radToDeg, RAD_TO_DEG]
    nlinarith [Real.pi_lt_d2]
  have hxhi : radToDeg a + 180 < 361 := by
    rw [radToDeg, RAD_TO_DEG]
    nlinarith [Real.pi_lt_d2]
  rw [jsMod360_cases _ (by linarith) (by linarith)]
  split_ifs with c1 c2
  · intro h
    linarith
  · intro h
    have : radToDeg a = 0 := by linarith
    rw [radToDeg] at this
    rcases mul_eq_zero.mp this with h' | h'
    · exact hane h'
    · exact hRAD h'
  · intro h
    linarith


/-- A computation reached through a true readiness check emits a fresh
output: the resolution time is the time at which the freshness test was
evaluated, in the same step. -/
theorem interpret_fresh {c : Core} {reading : ℚ} (h : (isReady c reading).1 = true)
    (k : OrbKind) (fix : GeoFix) :
    FreshOut (interpretTrackingData (isReady c reading).2 k fix).2 := by
  unfold isReady at h ⊢
  cases hs : c.headingSample with
  | none => rw [hs] at h; simp at h
  | some p =>
    obtain ⟨hv, t0⟩ := p
    rw [hs] at h
    dsimp only at h ⊢
    by_cases h0 : hv = 0
    · simp [h0] at h
    · rw [if_neg h0] at h ⊢
      by_cases hts : checkTimeStamp c.now t0 headingLifetime = true
      · rw [if_pos hts] at h ⊢
        have hfresh : c.now - t0 < headingLifetime := of_decide_eq_true hts
        cases k <;>
          simp [checkTilt, awaitUpright, interpretTrackingData, Core.setSearching, hs,
            FreshOut, hfresh]
      · rw [if_neg hts] at h
        simp at h

/-- Freshness of all outputs of `onPositionFound`. -/
theorem onPositionFound_fresh (c : Core) (r : Req) (fix : GeoFix) (reading : ℚ) :
    ∀ o ∈ (onPositionFound c r fix reading).2.1, FreshOut o := by
  intro o ho
  unfold onPositionFound at ho
  by_cases h : (isReady c reading).1 = true
  · simp only [h, if_true] at ho
    have : o = (interpretTrackingData (isReady c reading).2 r.kind fix).2 := by
      simpa using ho
    rw [this]
    exact interpret_fresh h r.kind fix
  · simp only [Bool.not_eq_true] at h
    simp [h] at ho

/-- Freshness of all outputs of `requestUserPosition`. -/
theorem requestUserPosition_fresh (c : Core) (r : Req) (reading : ℚ) :
    ∀ o ∈ (requestUserPosition c r reading).2.1, FreshOut o := by
  intro o ho
  unfold requestUserPosition at ho
  cases hf : r.foundPosition with
  | none => rw [hf] at ho; simp at ho
  | some p =>
    rw [hf] at ho
    exact onPositionFound_fresh c r p reading o ho

/-- Freshness of all outputs of a per-frame poll of one request. -/
theorem pollReq_fresh (c : Core) (r : Req) (reading : ℚ) :
    ∀ o ∈ (pollReq c r reading).2.1, FreshOut o := by
  intro o ho
  unfold pollReq at ho
  cases hp : r.phase with
  | awaitingStart =>
    rw [hp] at ho
    dsimp only at ho
    by_cases hw : initialWait < c.now
    · rw [if_pos hw] at ho
      exact requestUserPosition_fresh c r reading o ho
    · rw [if_neg hw] at ho
      simp at ho
  | awaitingGps => rw [hp] at ho; simp at ho
  | awaitingReady fix =>
    rw [hp] at ho
    dsimp only at ho
    by_cases h : (isReady c reading).1 = true
    · simp only [h, if_true] at ho
      have : o = (interpretTrackingData (isReady c reading).2 r.kind fix).2 := by
        simpa using ho
      rw [this]
      exact interpret_fresh h r.kind fix
    · simp only [Bool.not_eq_true] at h
      simp [h] at ho

/-- Freshness of all outputs of a full frame of polls. -/
theorem pollAll_fresh (c : Core) (rs : List Req) (reading : ℚ) :
    ∀ o ∈ (pollAll c rs reading).2.1, FreshOut o := by
  induction rs generalizing c with
  | nil => intro o ho; simp [pollAll] at ho
  | cons r rest ih =>
    intro o ho
    unfold pollAll at ho
    rcases List.mem_append.mp (by simpa using ho) with h' | h'
    · exact pollReq_fresh c r reading o h'
    · exact ih _ o h'

/-- Freshness of all outputs of a location-fix delivery. -/
theorem deliverGps_fresh (c : Core) (rs : List Req) (i : ℕ) (fix : GeoFix) (reading : ℚ) :
    ∀ o ∈ (deliverGps c rs i fix reading).2.1, FreshOut o := by
  induction rs generalizing c with
  | nil => intro o ho; simp [deliverGps] at ho
  | cons r rest ih =>
    intro o ho
    unfold deliverGps at ho
    by_cases hm : r.id = i ∧ r.phase = ReqPhase.awaitingGps
    · rw [if_pos hm] at ho
      exact onPositionFound_fresh c r fix reading o ho
    · rw [if_neg hm] at ho
      exact ih _ o ho

/-- Freshness of all outputs of a location-failure delivery (the outputs
are failure callbacks, for which freshness holds trivially). -/
theorem deliverGpsFailure_fresh (rs : List Req) (i : ℕ) (msg : String) :
    ∀ o ∈ (deliverGpsFailure rs i msg).1, FreshOut o := by
  induction rs with
  | nil => intro o ho; simp [deliverGpsFailure] at ho
  | cons r rest ih =>
    intro o ho
    unfold deliverGpsFailure at ho
    by_cases hm : r.id = i ∧ r.phase = ReqPhase.awaitingGps
    · rw [if_pos hm] at ho
      by_cases hf : r.hasOnFail
      · simp [hf] at ho
        rw [ho]
        trivial
      · simp [hf] at ho
    · rw [if_neg hm] at ho
      exact ih o ho

/-- Freshness of all outputs of a public API call. -/
theorem getOrb_fresh (c : Core) (k : OrbKind) (hs hf : Bool) (reading : ℚ) :
    ∀ o ∈ (getOrb c k hs hf reading).2, FreshOut o := by
  intro o ho
  unfold getOrb at ho
  by_cases h1 : hs
  · simp only [h1, Bool.not_true, Bool.false_eq_true, if_false] at ho
    by_cases h2 : c.searching k = true
    · simp only [h2, if_true] at ho
      by_cases h3 : hf
      · simp [h3] at ho
        rw [ho]
        trivial
      · simp [h3] at ho
    · simp only [Bool.not_eq_true] at h2
      simp only [h2, Bool.false_eq_true, if_false] at ho
      by_cases h4 : initialWait <
          ({ (if c.setSearching k true |>.serviceCreated then c.setSearching k true
              else { c.setSearching k true with serviceCreated := true }) with
             nextId := (if c.setSearching k true |>.serviceCreated then c.setSearching k true
              else { c.setSearching k true with serviceCreated := true }).nextId + 1 } : Core).now
      · rw [if_pos h4] at ho
        exact requestUserPosition_fresh _ _ reading o (by simpa using ho)
      · rw [if_neg h4] at ho
        simp at ho
  · simp only [h1] at ho
    simp at ho
    rw [ho]
    trivial

/-- Freshness of all outputs of a single step. -/
theorem step_fresh (c : Core) (e : Ev) : ∀ o ∈ (step c e).2, FreshOut o := by
  intro o ho
  cases e with
  | advance dt => simp [step] at ho
  | frame reading =>
    exact pollAll_fresh c c.pending reading o (by simpa [step] using ho)
  | headingUpdate h =>
    unfold step at ho
    by_cases hsc : c.serviceCreated = true
    · simp [hsc] at ho
    · simp only [Bool.not_eq_true] at hsc
      simp [hsc] at ho
  | gpsSuccess i fix reading =>
    exact deliverGps_fresh c c.pending i fix reading o (by simpa [step] using ho)
  | gpsFailure i msg =>
    exact deliverGpsFailure_fresh c.pending i msg o (by simpa [step] using ho)
  | cameraFront =>
    unfold step at ho
    by_cases hsp : c.specs = true
    · simp [hsp] at ho
    · simp only [Bool.not_eq_true] at hsp
      simp [hsp] at ho
  | cameraBack =>
    unfold step at ho
    by_cases hsp : c.specs = true
    · simp [hsp] at ho
    · simp only [Bool.not_eq_true] at hsp
      simp [hsp] at ho
  | call k hs hf reading =>
    exact getOrb_fresh c k hs hf reading o (by simpa [step] using ho)

/-- Freshness of all outputs of any run, from any state. -/
theorem run_fresh (c : Core) (evs : List Ev) : ∀ o ∈ (run c evs).2, FreshOut o := by
  induction evs generalizing c with
  | nil => intro o ho; simp [run] at ho
  | cons e es ih =>
    intro o ho
    unfold run at ho
    rcases List.mem_append.mp (by simpa using ho) with h' | h'
    · exact step_fresh c e o h'
    · exact ih _ o h'

/-- A stored heading of exactly zero makes the readiness check fail and
leaves the state untouched. -/
theorem isReady_zero {c : Core} {t0 : ℚ} (h : c.headingSample = some (0, t0)) (reading : ℚ) :
    isReady c reading = (false, c) := by
  unfold isReady
  rw [h]
  dsimp only
  rw [if_pos rfl]

/-- With a zero stored heading, a location-fix delivery parks the request
without computing. -/
theorem onPositionFound_zero {c : Core} {t0 : ℚ} (h : c.headingSample = some (0, t0))
    (r : Req) (fix : GeoFix) (reading : ℚ) :
    (onPositionFound c r fix reading).1 = c ∧ (onPositionFound c r fix reading).2.1 = [] := by
  unfold onPositionFound
  rw [isReady_zero h]
  exact ⟨rfl, rfl⟩

/-- With a zero stored heading, a poll of one request emits nothing and
preserves the stored sample. -/
theorem pollReq_zero {c : Core} {t0 : ℚ} (h : c.headingSample = some (0, t0))
    (r : Req) (reading : ℚ) :
    (pollReq c r reading).2.1 = [] ∧ (pollReq c r reading).1.headingSample = some (0, t0) := by
  unfold pollReq
  cases hp : r.phase with
  | awaitingStart =>
    dsimp only
    by_cases hw : initialWait < c.now
    · rw [if_pos hw]
      unfold requestUserPosition
      cases hfp : r.foundPosition with
      | none => exact ⟨rfl, h⟩
      | some p =>
        have hz := onPositionFound_zero h r p reading
        refine ⟨hz.2, ?_⟩
        rw [hz.1]
        exact h
    · rw [if_neg hw]
      exact ⟨rfl, h⟩
  | awaitingGps => exact ⟨rfl, h⟩
  | awaitingReady fix =>
    dsimp only
    rw [isReady_zero h]
    exact ⟨rfl, h⟩

/-- With a zero stored heading, a whole frame of polls emits nothing. -/
theorem pollAll_zero {c : Core} {t0 : ℚ} (h : c.headingSample = some (0, t0))
    (rs : List Req) (reading : ℚ) :
    (pollAll c rs reading).2.1 = [] := by
  induction rs generalizing c with
  | nil => simp [pollAll]
  | cons r rest ih =>
    unfold pollAll
    have hz := pollReq_zero h r reading
    dsimp only
    rw [hz.1, ih hz.2]
    rfl

/-- Bounds on the sun distance in centimeters, for any mean anomaly and
equation of center. -/
theorem sunDistance_bounds (M C : ℝ) :
    1.47e13 ≤ getSunDistanceAU M C * AU_IN_CM ∧ getSunDistanceAU M C * AU_IN_CM ≤ 1.522e13 := by
  unfold getSunDistanceAU AU_IN_CM
  have h1 := Real.neg_one_le_cos M
  have h2 := Real.cos_le_one M
  have h3 := Real.neg_one_le_cos (2 * M + C)
  have h4 := Real.cos_le_one (2 * M + C)
  constructor
  · nlinarith
  · nlinarith

/-- Bounds on the moon distance in centimeters, for any mean anomaly. -/
theorem moonDistance_bounds (M : ℝ) :
    3.64096e10 ≤ (385001 - 20905 * cos M) * 100000 ∧
      (385001 - 20905 * cos M) * 100000 ≤ 4.05906e10 := by
  have h1 := Real.neg_one_le_cos M
  have h2 := Real.cos_le_one M
  constructor
  · nlinarith
  · nlinarith

/-- C1 counterexample: at instant 0, the crafted pole latitude and the
crafted longitude, the embedded `getSunPosition` differs from the
reference algorithm as literally worded by the claim, because the source
adds the 180 degree term of the ecliptic longitude as the exact `Math.PI`
while the claimed reference converts it with the same approximate constant
as every other degree quantity. -/
theorem sun_solver_reference_counterexample :
    getSunPosition 0 cxLatPole cxLong ≠ specSunPosition 0 cxLatPole cxLong := by
  intro heq
  exact spec_azimuth_at_pole_ne
    (by rw [← congrArg SkyPosition.azimuth heq, code_azimuth_at_pole])

/-- C1 (amended): for every instant, latitude and longitude, the embedded
`getSunPosition` equals the reference algorithm of the specification with
the single amendment that the 180 degree term of the ecliptic longitude
enters as the exact half turn pi, as the source writes `Math.PI` there; day
count, mean anomaly, equation of center, obliquity 23.44 degrees,
declination, right ascension, sidereal time, altitude, azimuth reported as
(azimuth + 180) mod 360, and the distance in centimeters at 1 AU =
1.495978707e13 cm all match as claimed. -/
theorem sun_solver_matches_amended_reference (t lat long : ℝ) :
    getSunPosition t lat long = specSunPositionPi t lat long := by
  simp only [getSunPosition, specSunPositionPi, specSunPositionWith, specDays, specSunM,
    specSunC, specSunLPi, specSidereal, toDays, toJulian, dayMs, J1970, J2000,
    getSolarMeanAnomaly, getEquationOfCenter, getEclipticLongitude, getDeclination,
    getRightAscension, getSunDistanceAU, getSiderealTime, getAzAlt, earthTiltRad,
    AU_IN_CM, degToRad, radToDeg, SkyPosition.mk.injEq]
  refine ⟨?_, ?_, ?_⟩ <;> ring_nf

/-- C2: for every instant, latitude and longitude, the embedded
`getMoonPosition` equals the reference algorithm worded by the
specification: mean longitude 218.316 + 13.176396 d degrees, mean anomaly
134.963 + 13.064993 d degrees, distance 385001 - 20905 cos M kilometers
converted to centimeters by 100000, ecliptic longitude perturbed by 6.289
sin M degrees, ecliptic latitude 5.128 sin(93.272 + 13.229350 d) degrees,
the atan2/asin identities at obliquity 23.44 degrees, the shared sidereal
time formula, and the azimuth reported as (azimuth + 180) mod 360. -/
theorem moon_solver_matches_reference (t lat long : ℝ) :
    getMoonPosition t lat long = specMoonPosition t lat long := by
  simp only [getMoonPosition, specMoonPosition, specDays, specSidereal, toDays, toJulian,
    dayMs, J1970, J2000, getMoonCoords, getSiderealTime, getAzAlt, degToRad, radToDeg,
    SkyPosition.mk.injEq]
  refine ⟨?_, ?_, ?_⟩ <;> ring_nf

/-- C3: the GeoFix cache is a fresh call-local variable on every `getOrb`
call, so the model issues a second `getCurrentPosition` on the second
sequential request even though the first already delivered a fix and
resolved: after advancing past the initial wait, a first successful sun
request and a second sun call, the fetch counter is 2, contradicting the
claimed at-most-one fetch per process lifetime. -/
theorem gps_refetched_each_call :
    (run (initCore false)
      [Ev.advance 2, Ev.call OrbKind.sun true true 0, Ev.headingUpdate 90,
       Ev.gpsSuccess 0 demoFix 0, Ev.call OrbKind.sun true true 0]).1.gpsRequests = 2 ∧
    OutEvent.success OrbKind.sun 90 2 2 90 demoFix ∈
      (run (initCore false)
        [Ev.advance 2, Ev.call OrbKind.sun true true 0, Ev.headingUpdate 90,
         Ev.gpsSuccess 0 demoFix 0, Ev.call OrbKind.sun true true 0]).2 := by
  norm_num [run, step, getOrb, requestUserPosition, onPositionFound, isReady,
    checkTimeStamp, checkTilt, interpretTrackingData, pollAll, pollReq, deliverGps,
    deliverGpsFailure, initCore, demoFix, initialWait, headingLifetime,
    uprightThreshold, Core.searching, Core.setSearching, awaitUpright]

/-- C4 counterexample: after a location-fetch failure the searching flag
of the kind stays set (the failure handler only invokes the failure
callback), so the kind is not returned to Idle and a later request for the
same kind is rejected with the contention message. -/
theorem gps_failure_leaves_searching :
    ((run (initCore false) [Ev.advance 2, Ev.call OrbKind.sun true true 0,
        Ev.gpsFailure 0 "location error"]).1.sunSearching = true) ∧
    (run (initCore false) [Ev.advance 2, Ev.call OrbKind.sun true true 0,
        Ev.gpsFailure 0 "location error", Ev.call OrbKind.sun true true 0]).2 =
      [OutEvent.fail OrbKind.sun "location error", OutEvent.fail OrbKind.sun alreadyActive] := by
  norm_num [run, step, getOrb, requestUserPosition, onPositionFound, isReady,
    checkTimeStamp, checkTilt, interpretTrackingData, pollAll, pollReq, deliverGps,
    deliverGpsFailure, initCore, demoFix, initialWait, headingLifetime,
    uprightThreshold, Core.searching, Core.setSearching, awaitUpright]

/-- C4 (amended): the per-kind state machine returns to Idle on the
success terminal (the computation clears the searching flag of the kind),
while a location-fetch failure, reported through the failure callback,
leaves every searching flag unchanged: the flag is cleared only on
success. -/
theorem searching_terminal_amended (c : Core) (k : OrbKind) (fix : GeoFix)
    (i : ℕ) (msg : String) :
    (interpretTrackingData c k fix).1.searching k = false ∧
    (step c (Ev.gpsFailure i msg)).1.searching k = c.searching k := by
  constructor
  · cases k <;> simp [interpretTrackingData, Core.setSearching, Core.searching]
  · cases k <;> simp [step, Core.searching]

/-- C5: for every run of the model from the initial state, every resolved
request consumed a heading sample captured strictly less than
`headingLifetime` (0.15 s) before the moment of computation: the readiness
check evaluates `checkTimeStamp` on the stored capture time in the same
synchronous step that reads the heading and stamps the result. -/
theorem heading_consumed_fresh (sp : Bool) (evs : List Ev) (k : OrbKind)
    (hv t0 tr ah : ℚ) (fix : GeoFix)
    (hmem : OutEvent.success k hv t0 tr ah fix ∈ (run (initCore sp) evs).2) :
    tr - t0 < headingLifetime := by
  have h := run_fresh (initCore sp) evs _ hmem
  simpa [FreshOut] using h

/-- C5 witness: a concrete run resolving a sun request at time 2 with a
heading captured at time 2. -/
theorem heading_consumed_fresh_witness :
    (OutEvent.success OrbKind.sun 90 2 2 90 demoFix ∈
      (run (initCore false) [Ev.advance 2, Ev.call OrbKind.sun true true 0,
        Ev.headingUpdate 90, Ev.gpsSuccess 0 demoFix 0]).2) ∧
    (2 : ℚ) - 2 < headingLifetime := by
  have hmem : OutEvent.success OrbKind.sun 90 2 2 90 demoFix ∈
      (run (initCore false) [Ev.advance 2, Ev.call OrbKind.sun true true 0,
        Ev.headingUpdate 90, Ev.gpsSuccess 0 demoFix 0]).2 := by
    norm_num [run, step, getOrb, requestUserPosition, onPositionFound, isReady,
      checkTimeStamp, checkTilt, interpretTrackingData, pollAll, pollReq, deliverGps,
      deliverGpsFailure, initCore, demoFix, initialWait, headingLifetime,
      uprightThreshold, Core.searching, Core.setSearching, awaitUpright]
  exact ⟨hmem, heading_consumed_fresh false _ OrbKind.sun 90 2 2 90 demoFix hmem⟩

/-- C6: a call for a kind whose search is active fires the failure
callback synchronously with the contention message and changes nothing:
the step returns the state unchanged, and any continuation behaves exactly
as it would have without the rejected call, so the first request still
resolves as it otherwise would. -/
theorem second_call_rejected (c : Core) (k : OrbKind) (hf : Bool) (reading : ℚ)
    (h : c.searching k = true) :
    step c (Ev.call k true hf reading) =
      (c, if hf then [OutEvent.fail k alreadyActive] else []) ∧
    ∀ evs, run c (Ev.call k true hf reading :: evs) =
      ((run c evs).1, (if hf then [OutEvent.fail k alreadyActive] else []) ++ (run c evs).2) := by
  have h1 : step c (Ev.call k true hf reading) =
      (c, if hf then [OutEvent.fail k alreadyActive] else []) := by
    simp [step, getOrb, h]
  refine ⟨h1, fun evs => ?_⟩
  show (let s1 := step c (Ev.call k true hf reading)
        let rest := run s1.1 evs
        (rest.1, s1.2 ++ rest.2)) = _
  rw [h1]

/-- C6 witness: with a sun search in flight, a second sun call is rejected
with the contention message and the state is untouched. -/
theorem second_call_rejected_witness :
    ((run (initCore false) [Ev.advance 2, Ev.call OrbKind.sun true true 0]).1.searching
        OrbKind.sun = true) ∧
    step (run (initCore false) [Ev.advance 2, Ev.call OrbKind.sun true true 0]).1
        (Ev.call OrbKind.sun true true 0) =
      ((run (initCore false) [Ev.advance 2, Ev.call OrbKind.sun true true 0]).1,
        [OutEvent.fail OrbKind.sun alreadyActive]) := by
  have hs : (run (initCore false)
      [Ev.advance 2, Ev.call OrbKind.sun true true 0]).1.searching OrbKind.sun = true := by
    norm_num [run, step, getOrb, requestUserPosition, onPositionFound, isReady,
      checkTimeStamp, checkTilt, interpretTrackingData, pollAll, pollReq, deliverGps,
      deliverGpsFailure, initCore, demoFix, initialWait, headingLifetime,
      uprightThreshold, Core.searching, Core.setSearching, awaitUpright]
  exact ⟨hs, (second_call_rejected _ OrbKind.sun true 0 hs).1⟩

/-- C7 counterexample: at instant 0, a latitude converting exactly to the
solver declination and a longitude making the hour angle zero, the
reported sun altitude exceeds 90 degrees (it is the converted quarter
turn, and the conversion constant of the script slightly exceeds
180 / pi), so the altitude does not lie in the closed interval from -90
to 90. -/
theorem reported_range_counterexample :
    90 < (getSunPosition 0 cxLatDec cxLong).altitude := by
  rw [sun_alt_at_decLat, radToDeg, RAD_TO_DEG]
  nlinarith [Real.pi_gt_d20]

/-- C7 (amended): for every instant, latitude and longitude, both solvers
report an azimuth in the interval from -1e-9 exclusive to 360 exclusive
and an altitude in the interval from -(90 + 1e-9) to 90 + 1e-9: the claimed
ranges hold up to a slack below 1e-9 degrees caused by the approximate
radian-to-degree constant 57.2957795131 exceeding 180 / pi. -/
theorem reported_range_amended (t lat long : ℝ) :
    (-1e-9 < (getSunPosition t lat long).azimuth ∧ (getSunPosition t lat long).azimuth < 360 ∧
      -(90 + 1e-9) ≤ (getSunPosition t lat long).altitude ∧
      (getSunPosition t lat long).altitude ≤ 90 + 1e-9) ∧
    (-1e-9 < (getMoonPosition t lat long).azimuth ∧ (getMoonPosition t lat long).azimuth < 360 ∧
      -(90 + 1e-9) ≤ (getMoonPosition t lat long).altitude ∧
      (getMoonPosition t lat long).altitude ≤ 90 + 1e-9) := by
  have hs := sky_range
    (getSiderealTime (toDays t) (degToRad (-long)) -
      getRightAscension (getEclipticLongitude (getSolarMeanAnomaly (toDays t))
        (getEquationOfCenter (getSolarMeanAnomaly (toDays t)))))
    (degToRad lat)
    (getDeclination (getEclipticLongitude (getSolarMeanAnomaly (toDays t))
      (getEquationOfCenter (getSolarMeanAnomaly (toDays t)))))
  have hm := sky_range
    (getSiderealTime (toDays t) (degToRad (-long)) - (getMoonCoords (toDays t)).1)
    (degToRad lat) (getMoonCoords (toDays t)).2.1
  exact ⟨⟨hs.1.1, hs.1.2, hs.2.1, hs.2.2⟩, ⟨hm.1.1, hm.1.2, hm.2.1, hm.2.2⟩⟩

/-- C8 counterexample: at instant 0, latitude 0 and longitude 0 the
reported moon distance exceeds 4.07e7 centimeters (it is at least
3.64096e10 centimeters), so it does not lie in the claimed range from
about 3.56e7 to about 4.07e7 centimeters, which is off by a factor of one
thousand. -/
theorem moon_distance_counterexample :
    4.07e7 < (getMoonPosition 0 0 0).distance := by
  show 4.07e7 <
    (385001 - 20905 * cos (degToRad (134.963 + 13.064993 * toDays 0))) * 100000
  nlinarith [Real.cos_le_one (degToRad (134.963 + 13.064993 * toDays 0))]

/-- C8 (amended): for every instant, latitude and longitude both reported
distances are strictly positive, the sun distance lies between 1.47e13
and 1.522e13 centimeters, and the moon distance lies between the formula
bounds 3.64096e10 and 4.05906e10 centimeters (385001 plus or minus 20905
kilometers, times 100000). -/
theorem distance_ranges_amended (t lat long : ℝ) :
    (0 < (getSunPosition t lat long).distance ∧
      1.47e13 ≤ (getSunPosition t lat long).distance ∧
      (getSunPosition t lat long).distance ≤ 1.522e13) ∧
    (0 < (getMoonPosition t lat long).distance ∧
      3.64096e10 ≤ (getMoonPosition t lat long).distance ∧
      (getMoonPosition t lat long).distance ≤ 4.05906e10) := by
  have hs := sunDistance_bounds (getSolarMeanAnomaly (toDays t))
    (getEquationOfCenter (getSolarMeanAnomaly (toDays t)))
  have hm := moonDistance_bounds (degToRad (134.963 + 13.064993 * toDays t))
  exact ⟨⟨lt_of_lt_of_le (by norm_num) hs.1, hs.1, hs.2⟩,
    ⟨lt_of_lt_of_le (by norm_num) hm.1, hm.1, hm.2⟩⟩

/-- C9: with no camera configured `worldToScreen` returns the empty result
(and, being a total function, never throws); with a camera configured it
returns a record whose position is the projected screen point remapped
from the unit square to the square from -1 to 1 with the vertical axis
flipped, and whose front flag holds exactly when the point has negative z
in the inverted tracking world transform; the two fields are computed
independently and both are always present. -/
theorem world_to_screen_contract (env : RenderEnv) (p : vec3) :
    (env.cam = none → worldToScreen env p = none) ∧
    (∀ proj, env.cam = some proj →
      worldToScreen env p = some
        { position := ⟨((proj p).x - 0.5) * 2, (1 - (proj p).y - 0.5) * 2⟩,
          isInFront := (env.invertedWorldTransform p).z < 0 }) := by
  constructor
  · intro h
    unfold worldToScreen
    rw [h]
  · intro proj h
    unfold worldToScreen
    rw [h]

/-- C9 witness: a concrete environment without a camera yields the empty
result, and one with a camera yields the remapped position and depth
flag. -/
theorem world_to_screen_contract_witness :
    worldToScreen ⟨none, id⟩ ⟨1, 2, 3⟩ = none ∧
    worldToScreen ⟨some (fun _ => ⟨0.3, 0.8⟩), id⟩ ⟨1, 2, -3⟩ =
      some { position := ⟨(0.3 - 0.5) * 2, (1 - 0.8 - 0.5) * 2⟩,
             isInFront := (-3 : ℝ) < 0 } := by
  constructor
  · exact (world_to_screen_contract ⟨none, id⟩ ⟨1, 2, 3⟩).1 rfl
  · exact (world_to_screen_contract ⟨some (fun _ => ⟨0.3, 0.8⟩), id⟩ ⟨1, 2, -3⟩).2 _ rfl

/-- C10: the readiness gate tests the stored heading for truthiness, so a
stored heading of exactly zero makes the gate fail regardless of freshness
and tilt, and a frame poll in that state emits nothing; for any nonzero
stored heading the existence conjunct passes and the gate reduces to the
freshness and tilt tests. -/
theorem zero_heading_gate (c : Core) (t0 hv reading : ℚ) :
    (c.headingSample = some (0, t0) → (isReady c reading).1 = false) ∧
    (c.headingSample = some (0, t0) → (step c (Ev.frame reading)).2 = []) ∧
    (c.headingSample = some (hv, t0) → hv ≠ 0 →
      (isReady c reading).1 =
        (checkTimeStamp c.now t0 headingLifetime && !(checkTilt c reading).1)) := by
  refine ⟨fun h => ?_, fun h => ?_, fun h hnz => ?_⟩
  · rw [isReady_zero h]
  · show (pollAll c c.pending reading).2.1 = []
    exact pollAll_zero h c.pending reading
  · unfold isReady
    rw [h]
    dsimp only
    rw [if_neg hnz]
    by_cases hts : checkTimeStamp c.now t0 headingLifetime = true
    · rw [if_pos hts, hts, Bool.true_and]
    · rw [if_neg hts]
      have hfalse : checkTimeStamp c.now t0 headingLifetime = false := by
        cases hb : checkTimeStamp c.now t0 headingLifetime
        · rfl
        · exact absurd hb hts
      rw [hfalse, Bool.false_and]

/-- C10 witness: a concrete state whose stored heading is exactly zero is
not ready. -/
theorem zero_heading_gate_witness :
    ({ initCore false with headingSample := some ((0 : ℚ), (3 : ℚ)) } : Core).headingSample =
        some (0, 3) ∧
    (isReady { initCore false with headingSample := some ((0 : ℚ), (3 : ℚ)) } 0).1 = false := by
  have h : ({ initCore false with headingSample := some ((0 : ℚ), (3 : ℚ)) } :
      Core).headingSample = some (0, 3) := rfl
  exact ⟨h, (zero_heading_gate _ 3 1 0).1 h⟩

end SunMoonTracker
